import Mathlib

/-
Verification of the arbitrage-bot detection core (src/arbitrage_detector.py,
src/config.py) against its specification.

Modelling conventions:
* Python floats are modelled as exact rationals (ℚ).
* A ticker dict is modelled by the keys the detector reads ('bid', 'ask',
  'symbol'); `none` for bid/ask covers both a missing key and a null value
  (both paths return None in `_check_opportunity`, via the caught KeyError
  or the explicit `is None` check); `none` for symbol covers a missing key
  (caught KeyError).  Values are restricted to well-typed payloads
  (numbers-or-null for bid/ask, a string for symbol).
* Python exceptions that escape a function are modelled with `Except Unit`:
  `.error ()` marks an uncaught exception (the IndexError from
  `symbol.split('/')[1]` is *not* in the caught tuple at line 150).
* Python dicts iterate in insertion order and have unique keys, so a
  snapshot mapping is an association list `List (String × Option Ticker)`.
-/

namespace ArbBot

/-- Configuration (src/config.py): the two values the detector reads,
with their source-code defaults (MIN_PROFIT_PERCENTAGE = 0.5,
TRADE_AMOUNT_USD = 100). -/
structure Config where
  MIN_PROFIT_PERCENTAGE : ℚ := 1/2
  TRADE_AMOUNT_USD : ℚ := 100
  deriving DecidableEq

/-- The keys of a ticker dict read by ArbitrageDetector
(src/arbitrage_detector.py lines 112, 114, 134-135). -/
structure Ticker where
  bid : Option ℚ := none
  ask : Option ℚ := none
  symbol : Option String := none
  deriving DecidableEq

/-- ArbitrageOpportunity (src/arbitrage_detector.py lines 6-21), minus the
wall-clock timestamp field, which the detection logic never reads. -/
structure ArbitrageOpportunity where
  buy_exchange : String
  sell_exchange : String
  symbol : String
  quote : String
  buy_price : ℚ
  sell_price : ℚ
  profit_percentage : ℚ
  estimated_profit : ℚ
  deriving DecidableEq

/-- The mutable attributes of ArbitrageDetector
(src/arbitrage_detector.py lines 46-49). -/
structure DetectorState where
  min_profit_percentage : ℚ
  opportunities_found : ℕ
  opportunities_executed : ℕ
  deriving DecidableEq

/-- ArbitrageDetector.__init__ (src/arbitrage_detector.py lines 46-49).
`self.min_profit_percentage = min_profit_percentage or Config.MIN_PROFIT_PERCENTAGE`:
Python `or` takes the right operand when the left is falsy, i.e. when the
argument is None or (numerically) zero. -/
def detectorInit (min_profit_percentage : Option ℚ) (cfg : Config) : DetectorState :=
  { min_profit_percentage :=
      match min_profit_percentage with
      | none => cfg.MIN_PROFIT_PERCENTAGE
      | some x => if x = 0 then cfg.MIN_PROFIT_PERCENTAGE else x
    opportunities_found := 0
    opportunities_executed := 0 }

/-- Python `str.split(sep)` for a one-character separator, on the
character list of the string: splits at every occurrence of the
separator, keeping empty segments ('a//b' → ['a', '', 'b']). -/
def splitOnChar (c : Char) : List Char → List (List Char)
  | [] => [[]]
  | x :: xs =>
    if x = c then [] :: splitOnChar c xs
    else
      match splitOnChar c xs with
      | [] => [[x]]
      | y :: ys => (x :: y) :: ys

/-- Python `symbol.split('/')` (src/arbitrage_detector.py lines 134-135). -/
def pySplit (s : String) (c : Char) : List String :=
  (splitOnChar c s.data).map String.mk

/-- ArbitrageDetector._check_opportunity (src/arbitrage_detector.py
lines 96-152).  `.ok none` covers every path on which the Python returns
None: a missing 'ask'/'bid'/'symbol' key (KeyError, caught at line 150),
a null bid or ask (the explicit `is None` check at line 116), a zero
buy price (ZeroDivisionError at line 122, caught), and a spread below the
threshold.  `.error ()` marks the uncaught IndexError raised when the
symbol string contains no '/' (line 135). -/
def checkOpportunity (min_profit_percentage : ℚ) (cfg : Config)
    (buy_exchange sell_exchange : String)
    (buy_ticker sell_ticker : Ticker) :
    Except Unit (Option ArbitrageOpportunity) :=
  match buy_ticker.ask, sell_ticker.bid with
  | some buy_price, some sell_price =>
    if buy_price = 0 then
      .ok none
    else
      let fee_percentage : ℚ := 2/10
      let profit_percentage := ((sell_price - buy_price) / buy_price * 100) - fee_percentage
      if min_profit_percentage ≤ profit_percentage then
        match buy_ticker.symbol with
        | none => .ok none
        | some sym =>
          let parts := pySplit sym '/'
          if 2 ≤ parts.length then
            let trade_amount_coins := cfg.TRADE_AMOUNT_USD / buy_price
            let gross := (sell_price - buy_price) * trade_amount_coins
            let buy_fee := cfg.TRADE_AMOUNT_USD * (1/1000)
            let sell_fee := (trade_amount_coins * sell_price) * (1/1000)
            .ok (some
              { buy_exchange := buy_exchange
                sell_exchange := sell_exchange
                symbol := parts.getD 0 ""
                quote := parts.getD 1 ""
                buy_price := buy_price
                sell_price := sell_price
                profit_percentage := profit_percentage
                estimated_profit := gross - (buy_fee + sell_fee) })
          else
            .error ()
      else
        .ok none
  | _, _ => .ok none

/-- The filter at src/arbitrage_detector.py line 64: keep the exchanges
whose ticker payload `is not None` (paired with their payloads; dict keys
are unique, so this is the list of `(exchange, tickers[exchange])`). -/
def validExchanges (tickers : List (String × Option Ticker)) : List (String × Ticker) :=
  tickers.filterMap (fun p => p.2.map (fun t => (p.1, t)))

/-- The inner loop of find_opportunities (src/arbitrage_detector.py
lines 71-89) for a fixed first exchange: for each later exchange, evaluate
both directions and append the non-None results, opp1 before opp2.  An
uncaught exception from either evaluation aborts the whole scan. -/
def scanInner (min_profit_percentage : ℚ) (cfg : Config) (ex1 : String × Ticker) :
    List (String × Ticker) → Except Unit (List ArbitrageOpportunity)
  | [] => .ok []
  | ex2 :: rest =>
    match checkOpportunity min_profit_percentage cfg ex1.1 ex2.1 ex1.2 ex2.2 with
    | .error e => .error e
    | .ok opp1 =>
      match checkOpportunity min_profit_percentage cfg ex2.1 ex1.1 ex2.2 ex1.2 with
      | .error e => .error e
      | .ok opp2 =>
        match scanInner min_profit_percentage cfg ex1 rest with
        | .error e => .error e
        | .ok tail => .ok (opp1.toList ++ (opp2.toList ++ tail))

/-- The outer loop of find_opportunities (src/arbitrage_detector.py
lines 70-89): pairs in enumeration order, each first exchange against all
later ones. -/
def scanOuter (min_profit_percentage : ℚ) (cfg : Config) :
    List (String × Ticker) → Except Unit (List ArbitrageOpportunity)
  | [] => .ok []
  | ex1 :: rest =>
    match scanInner min_profit_percentage cfg ex1 rest with
    | .error e => .error e
    | .ok here =>
      match scanOuter min_profit_percentage cfg rest with
      | .error e => .error e
      | .ok tail => .ok (here ++ tail)

/-- ArbitrageDetector.find_opportunities (src/arbitrage_detector.py
lines 51-94).  Returns the collected opportunities and the updated
detector state.  The source increments `opportunities_found` only when
the list is non-empty (line 91); adding the length unconditionally is the
same state, since the increment of an empty list is zero. -/
def findOpportunities (s : DetectorState) (cfg : Config)
    (tickers : List (String × Option Ticker)) :
    Except Unit (List ArbitrageOpportunity × DetectorState) :=
  let valid := validExchanges tickers
  if valid.length < 2 then .ok ([], s)
  else
    match scanOuter s.min_profit_percentage cfg valid with
    | .error e => .error e
    | .ok opps =>
      .ok (opps, { s with opportunities_found := s.opportunities_found + opps.length })

/-- The arithmetic of ArbitrageDetector.calculate_optimal_trade_amount
(src/arbitrage_detector.py lines 154-179) on a non-zero buy price.
Rational division here is total (x/0 = 0), so this function is the
sizer only away from buy_price = 0; the source's division at line 168
is unguarded and raises an uncaught ZeroDivisionError there.  The
faithful embedding with that fault path is
calculateOptimalTradeAmountEx below, which returns `.ok` of this
function exactly when the buy price is non-zero
(calculateOptimalTradeAmount_agrees); the C7 theorems all assume a
positive buy price and therefore stay on the faithful domain. -/
def calculateOptimalTradeAmount (cfg : Config) (opportunity : ArbitrageOpportunity)
    (buy_balance sell_balance : ℚ) : ℚ :=
  let max_buyable := min buy_balance cfg.TRADE_AMOUNT_USD / opportunity.buy_price
  let max_sellable := sell_balance
  let optimal_amount := min max_buyable max_sellable
  optimal_amount * (98/100)

/-- ArbitrageDetector.calculate_optimal_trade_amount
(src/arbitrage_detector.py lines 154-179) with its error path kept:
the division `min(buy_balance, Config.TRADE_AMOUNT_USD) /
opportunity.buy_price` at line 168 has no surrounding try/except, so a
zero buy price raises an uncaught ZeroDivisionError, modelled as
`.error ()`; on every other input the computed quantity is returned. -/
def calculateOptimalTradeAmountEx (cfg : Config) (opportunity : ArbitrageOpportunity)
    (buy_balance sell_balance : ℚ) : Except Unit ℚ :=
  if opportunity.buy_price = 0 then .error ()
  else
    let max_buyable := min buy_balance cfg.TRADE_AMOUNT_USD / opportunity.buy_price
    let max_sellable := sell_balance
    let optimal_amount := min max_buyable max_sellable
    .ok (optimal_amount * (98/100))

/-- The dict returned by ArbitrageDetector.get_statistics
(src/arbitrage_detector.py lines 181-187). -/
structure Statistics where
  opportunities_found : ℕ
  opportunities_executed : ℕ
  success_rate : ℚ
  deriving DecidableEq

/-- ArbitrageDetector.get_statistics (src/arbitrage_detector.py
lines 181-187): true division of the counters, with the `max(found, 1)`
floor on the denominator. -/
def getStatistics (s : DetectorState) : Statistics :=
  { opportunities_found := s.opportunities_found
    opportunities_executed := s.opportunities_executed
    success_rate :=
      ((s.opportunities_executed : ℚ) / ((max s.opportunities_found 1 : ℕ) : ℚ)) * 100 }

/-- A ticker that is a valid snapshot in the spec's sense: bid and ask
present (non-null) and a parseable 'base/quote' symbol. -/
def validTicker (t : Ticker) : Prop :=
  t.bid.isSome = true ∧ t.ask.isSome = true ∧ t.symbol.isSome = true ∧
    2 ≤ (pySplit (t.symbol.getD "") '/').length

instance : DecidablePred validTicker := fun t => by
  unfold validTicker
  infer_instance

/-! Concrete values used in the counterexample and witness theorems below. -/

/-- A fresh detector state with the default threshold (0.5%). -/
def s0 : DetectorState := ⟨1/2, 0, 0⟩

/-- The detector state after one scan that found one opportunity. -/
def s1 : DetectorState := ⟨1/2, 1, 0⟩

/-- A fully valid buy-side ticker: bid 1, ask 1, symbol XLM/USD. -/
def cwBuy : Ticker := { bid := some 1, ask := some 1, symbol := some "XLM/USD" }

/-- A fully valid sell-side ticker: bid 1.5, ask 1.5, symbol XLM/USD. -/
def cwSell : Ticker := { bid := some (3/2), ask := some (3/2), symbol := some "XLM/USD" }

/-- A two-venue snapshot mapping built from cwBuy and cwSell. -/
def cwTickers : List (String × Option Ticker) :=
  [("binance", some cwBuy), ("kraken", some cwSell)]

/-- The opportunity the detector produces on cwTickers: buy at 1 on
binance, sell at 1.5 on kraken, net profit 49.8%, estimated profit
49.75 on the default 100 USD notional. -/
def cwOpp : ArbitrageOpportunity :=
  ⟨"binance", "kraken", "XLM", "USD", 1, 3/2, 249/5, 199/4⟩

/-- A ticker with an ask and a symbol but no bid. -/
def c1Buy : Ticker := { ask := some 1, symbol := some "XLM/USD" }

/-- A ticker with a bid and a symbol but no ask. -/
def c1Sell : Ticker := { bid := some 2, symbol := some "XLM/USD" }

/-- A snapshot mapping pairing a bid-less snapshot with an ask-less one. -/
def c1Tickers : List (String × Option Ticker) :=
  [("binance", some c1Buy), ("kraken", some c1Sell)]

/-- A ticker with a symbol only (no bid, no ask). -/
def c1wBuy : Ticker := { symbol := some "XLM/USD" }

/-- Two venues whose pair-order profits are ascending: the earlier
enumerated direction earns 49.8%, the later one 99.8%. -/
def c3T1 : Ticker := { bid := some 2, ask := some 1, symbol := some "XLM/USD" }

/-- Companion ticker to c3T1 (bid 1.5, ask 1). -/
def c3T2 : Ticker := { bid := some (3/2), ask := some 1, symbol := some "XLM/USD" }

/-- Snapshot mapping on which the scan output is ordered by profit
ascending, not descending. -/
def c3Tickers : List (String × Option Ticker) :=
  [("binance", some c3T1), ("kraken", some c3T2)]

/-- A ticker with a negative ask. -/
def c4Buy : Ticker := { bid := some 1, ask := some (-1), symbol := some "XLM/USD" }

/-- A ticker with a negative bid. -/
def c4Sell : Ticker := { bid := some (-2), ask := some 1, symbol := some "XLM/USD" }

/-- A ticker whose ask is exactly zero. -/
def c4wBuy : Ticker := { bid := some 1, ask := some 0, symbol := some "XLM/USD" }

/-- A ticker quoted in USD. -/
def c5Buy : Ticker := { bid := some 1, ask := some 1, symbol := some "XLM/USD" }

/-- A ticker quoted in USDT (different quote currency than c5Buy). -/
def c5Sell : Ticker := { bid := some 2, ask := some 2, symbol := some "XLM/USDT" }

/-- A sell-side ticker agreeing with c5Sell on the bid but differing in
ask and symbol. -/
def c5AltSell : Ticker := { bid := some 2, symbol := some "XLM/EUR" }

/-- A concrete opportunity with buy price 1, used to exercise the trade
sizer. -/
def c6Opp : ArbitrageOpportunity :=
  ⟨"binance", "kraken", "XLM", "USD", 1, 3/2, 249/5, 199/4⟩

/-- A concrete opportunity with buy price 0, exercising the sizer's
division fault path. -/
def c6OppZero : ArbitrageOpportunity :=
  ⟨"binance", "kraken", "XLM", "USD", 0, 3/2, 249/5, 199/4⟩

/-! Theorems. -/

/-- C1 counterexample: on a mapping where the binance snapshot has no bid
and the kraken snapshot has no ask, find_opportunities still returns an
opportunity buying on binance and selling on kraken — the buy leg comes
from a snapshot missing its bid and the sell leg from one missing its
ask, so such snapshots are not excluded from pairing. -/
theorem C1_counterexample :
    c1Buy.bid = none ∧ c1Sell.ask = none ∧
      (findOpportunities s0 {} c1Tickers).map
          (fun r => r.1.map (fun o => (o.buy_exchange, o.sell_exchange))) =
        .ok [("binance", "kraken")] := by
  refine ⟨rfl, rfl, ?_⟩
  with_unfolding_all rfl

/-- C1 (amended): only the leg-relevant quote is required — a snapshot
whose ask is missing or null never serves as a buy leg, and a snapshot
whose bid is missing or null never serves as a sell leg; the evaluator
returns none for such a pair. -/
theorem C1_amended (mp : ℚ) (cfg : Config) (be se : String) (bt st : Ticker)
    (h : bt.ask = none ∨ st.bid = none) :
    checkOpportunity mp cfg be se bt st = .ok none := by
  rcases h with h | h
  · cases hsb : st.bid <;> simp [checkOpportunity, h, hsb]
  · cases hba : bt.ask <;> simp [checkOpportunity, h, hba]

/-- Witness for C1_amended at a concrete ask-less buy ticker. -/
theorem C1_amended_witness :
    checkOpportunity (1/2) {} "binance" "kraken" c1wBuy cwSell = .ok none :=
  C1_amended (1/2) {} "binance" "kraken" c1wBuy cwSell (Or.inl rfl)

/-- C4 counterexample: with a buy ask of −1 and a sell bid of −2 (both
≤ 0) the evaluator does not return none: it produces an opportunity with
those negative prices, because the source only catches the zero-division
case and never rejects non-positive prices. -/
theorem C4_counterexample :
    ((-1 : ℚ) ≤ 0 ∧ (-2 : ℚ) ≤ 0) ∧
      (checkOpportunity (1/2) {} "binance" "kraken" c4Buy c4Sell).map
          (fun r => r.map (fun o => (o.buy_price, o.sell_price))) =
        .ok (some (-1, -2)) := by
  refine ⟨⟨by norm_num, by norm_num⟩, ?_⟩
  with_unfolding_all rfl

/-- C4 (amended): the evaluator guards the division — a zero buy price
(the ZeroDivisionError path) and missing/null prices all yield none
without a fault — but negative prices are not rejected. -/
theorem C4_amended (mp : ℚ) (cfg : Config) (be se : String) (bt st : Ticker)
    (h : bt.ask = some 0 ∨ bt.ask = none ∨ st.bid = none) :
    checkOpportunity mp cfg be se bt st = .ok none := by
  rcases h with h | h | h
  · cases hsb : st.bid <;> simp [checkOpportunity, h, hsb]
  · cases hsb : st.bid <;> simp [checkOpportunity, h, hsb]
  · cases hba : bt.ask <;> simp [checkOpportunity, h, hba]

/-- Witness for C4_amended at a concrete zero-ask buy ticker. -/
theorem C4_amended_witness :
    checkOpportunity (1/2) {} "binance" "kraken" c4wBuy cwSell = .ok none :=
  C4_amended (1/2) {} "binance" "kraken" c4wBuy cwSell (Or.inl rfl)

/-- C5 counterexample: a USD-quoted buy snapshot and a USDT-quoted sell
snapshot are compared anyway, and the evaluator returns an opportunity
(whose quote field is copied from the buy snapshot) — cross-denominated
pairs are not rejected. -/
theorem C5_counterexample :
    c5Buy.symbol = some "XLM/USD" ∧ c5Sell.symbol = some "XLM/USDT" ∧
      ("USD" : String) ≠ "USDT" ∧
      (checkOpportunity (1/2) {} "binance" "kraken" c5Buy c5Sell).map
          (fun r => r.map (fun o => (o.quote, o.buy_price, o.sell_price))) =
        .ok (some ("USD", 1, 2)) := by
  refine ⟨rfl, rfl, by decide, ?_⟩
  with_unfolding_all rfl

/-- C5 (amended): the evaluator performs no quote-currency comparison at
all — its result depends on the sell snapshot only through the bid, so
two sell snapshots with equal bids but different symbols (different
quote currencies) are indistinguishable to it. -/
theorem C5_amended (mp : ℚ) (cfg : Config) (be se : String)
    (bt st₁ st₂ : Ticker) (h : st₁.bid = st₂.bid) :
    checkOpportunity mp cfg be se bt st₁ = checkOpportunity mp cfg be se bt st₂ := by
  unfold checkOpportunity
  rw [h]

/-- Witness for C5_amended: a USDT-quoted and a EUR-quoted sell snapshot
with the same bid produce identical evaluator results. -/
theorem C5_amended_witness :
    checkOpportunity (1/2) {} "binance" "kraken" c5Buy c5Sell =
      checkOpportunity (1/2) {} "binance" "kraken" c5Buy c5AltSell :=
  C5_amended (1/2) {} "binance" "kraken" c5Buy c5Sell c5AltSell rfl

/-- Off the zero-price fault, the total sizer arithmetic used by the C7
theorems agrees with the faithful Except-valued embedding of
calculate_optimal_trade_amount. -/
theorem calculateOptimalTradeAmount_agrees (cfg : Config)
    (opp : ArbitrageOpportunity) (bb sb : ℚ) (hp : opp.buy_price ≠ 0) :
    calculateOptimalTradeAmountEx cfg opp bb sb =
      .ok (calculateOptimalTradeAmount cfg opp bb sb) := by
  simp [calculateOptimalTradeAmountEx, calculateOptimalTradeAmount, hp]

/-- C6 counterexample: with zero quote balance (so finalQuantity = 0,
which is ≤ 0) the trade sizer returns the number 0, not any Rejected
value — the source has no rejection result type. -/
theorem C6_counterexample :
    calculateOptimalTradeAmountEx {} c6Opp 0 5 = .ok 0 := by
  with_unfolding_all rfl

/-- C6 (amended): at a zero buy price the sizer raises an uncaught
ZeroDivisionError (it returns nothing); for any non-zero buy price it
returns the number min(min(buyBalance, referenceNotional)/buyPrice,
sellerInventory) × 0.98 — never a rejection — and when the buyer has no
capital (balance ≤ 0) and the buy price is positive, that returned
quantity is ≤ 0. -/
theorem C6_amended (cfg : Config) (opp : ArbitrageOpportunity) (bb sb : ℚ) :
    (opp.buy_price = 0 → calculateOptimalTradeAmountEx cfg opp bb sb = .error ()) ∧
      (opp.buy_price ≠ 0 →
        calculateOptimalTradeAmountEx cfg opp bb sb =
          .ok (min (min bb cfg.TRADE_AMOUNT_USD / opp.buy_price) sb * (98/100))) ∧
      (bb ≤ 0 → 0 < opp.buy_price →
        ∀ q, calculateOptimalTradeAmountEx cfg opp bb sb = .ok q → q ≤ 0) := by
  refine ⟨fun hz => by simp [calculateOptimalTradeAmountEx, hz],
    fun hz => by simp [calculateOptimalTradeAmountEx, hz],
    fun hbb hp q hq => ?_⟩
  have hz : opp.buy_price ≠ 0 := ne_of_gt hp
  simp only [calculateOptimalTradeAmountEx, if_neg hz, Except.ok.injEq] at hq
  subst hq
  have h1 : min bb cfg.TRADE_AMOUNT_USD ≤ 0 := le_trans (min_le_left _ _) hbb
  have h2 : min bb cfg.TRADE_AMOUNT_USD / opp.buy_price ≤ 0 :=
    div_nonpos_iff.mpr (Or.inr ⟨h1, hp.le⟩)
  have h3 : min (min bb cfg.TRADE_AMOUNT_USD / opp.buy_price) sb ≤ 0 :=
    le_trans (min_le_left _ _) h2
  nlinarith [h3]

/-- Witness for C6_amended: the zero-price fault, the returned formula
at zero buyer balance, and the nonpositive returned quantity, all at
concrete inputs. -/
theorem C6_amended_witness :
    calculateOptimalTradeAmountEx {} c6OppZero 0 5 = .error () ∧
      calculateOptimalTradeAmountEx {} c6Opp 0 5 =
        .ok (min (min 0 ({} : Config).TRADE_AMOUNT_USD / c6Opp.buy_price) 5 * (98/100)) ∧
      (0 : ℚ) ≤ 0 :=
  ⟨(C6_amended {} c6OppZero 0 5).1 rfl,
    (C6_amended {} c6Opp 0 5).2.1 (by norm_num [c6Opp]),
    (C6_amended {} c6Opp 0 5).2.2 le_rfl (by norm_num [c6Opp]) 0
      (by with_unfolding_all rfl)⟩

/-- C7 counterexample: with a negative seller inventory (−10) the 0.98
safety factor moves the result up towards zero, so the returned quantity
−9.8 exceeds min(buyerQuoteBalance/buyPrice, sellerBaseInventory) = −10;
the bound fails without sign assumptions on the inputs. -/
theorem C7_counterexample :
    calculateOptimalTradeAmount {} c6Opp 100 (-10) = -49/5 ∧
      ¬(-49/5 : ℚ) ≤ min ((100 : ℚ) / c6Opp.buy_price) (-10) := by
  constructor
  · with_unfolding_all rfl
  · simp only [c6Opp]
    norm_num

/-- C7 (amended): for a positive buy price and nonnegative balances, the
sized quantity never exceeds min(buyerQuoteBalance/buyPrice,
sellerBaseInventory). -/
theorem C7_amended (cfg : Config) (opp : ArbitrageOpportunity) (bb sb : ℚ)
    (hp : 0 < opp.buy_price) (hbb : 0 ≤ bb) (hsb : 0 ≤ sb) :
    calculateOptimalTradeAmount cfg opp bb sb ≤ min (bb / opp.buy_price) sb := by
  unfold calculateOptimalTradeAmount
  have hbp : min bb cfg.TRADE_AMOUNT_USD / opp.buy_price ≤ bb / opp.buy_price :=
    (div_le_div_iff_of_pos_right hp).mpr (min_le_left _ _)
  have hmin : min (min bb cfg.TRADE_AMOUNT_USD / opp.buy_price) sb ≤
      min (bb / opp.buy_price) sb := min_le_min hbp le_rfl
  rcases le_or_lt 0 (min (min bb cfg.TRADE_AMOUNT_USD / opp.buy_price) sb) with hm | hm
  · exact le_trans (mul_le_of_le_one_right hm (by norm_num)) hmin
  · have hpos : (0 : ℚ) ≤ min (bb / opp.buy_price) sb :=
      le_min (div_nonneg hbb hp.le) hsb
    nlinarith [hm, hpos]

/-- Witness for C7_amended at positive price and nonnegative balances. -/
theorem C7_amended_witness :
    calculateOptimalTradeAmount {} c6Opp 100 5 ≤ min ((100 : ℚ) / c6Opp.buy_price) 5 :=
  C7_amended {} c6Opp 100 5 (by norm_num [c6Opp]) (by norm_num) (by norm_num)

/-- C2: for two valid snapshots (bid, ask and a base/quote symbol all
present) with positive buy-side ask `a` and sell-side bid `s`, the
evaluator returns an opportunity iff the fee-adjusted spread
(s − a)/a × 100 − 0.2 meets the threshold, and any returned
opportunity's profit percentage is exactly that value. -/
theorem C2_threshold_iff (mp : ℚ) (cfg : Config) (be se : String)
    (bt st : Ticker) (a s : ℚ)
    (hbt : validTicker bt) (_hst : validTicker st)
    (ha : bt.ask = some a) (hs : st.bid = some s)
    (hapos : 0 < a) (_hspos : 0 < s) :
    ((∃ o, checkOpportunity mp cfg be se bt st = .ok (some o)) ↔
        mp ≤ (s - a) / a * 100 - 2/10) ∧
      ∀ o, checkOpportunity mp cfg be se bt st = .ok (some o) →
        o.profit_percentage = (s - a) / a * 100 - 2/10 := by
  obtain ⟨hbid, hask, hsym, hlen⟩ := hbt
  obtain ⟨sym, hsymeq⟩ := Option.isSome_iff_exists.mp hsym
  have hane : a ≠ 0 := ne_of_gt hapos
  rw [hsymeq] at hlen
  simp only [Option.getD_some] at hlen
  by_cases hth : mp ≤ (s - a) / a * 100 - 2/10
  · constructor
    · simp [checkOpportunity, ha, hs, hane, hsymeq, hth, hlen]
    · intro o ho
      simp [checkOpportunity, ha, hs, hane, hsymeq, hth, hlen] at ho
      rw [← ho]
  · constructor
    · simp [checkOpportunity, ha, hs, hane, hsymeq, hth, hlen]
    · intro o ho
      simp [checkOpportunity, ha, hs, hane, hsymeq, hth, hlen] at ho

/-- Witness for C2_threshold_iff on the concrete pair cwBuy/cwSell
(ask 1, bid 1.5): the opportunity the scan produces there carries
profit percentage exactly (1.5 − 1)/1 × 100 − 0.2. -/
theorem C2_witness :
    cwOpp.profit_percentage = ((3/2 : ℚ) - 1) / 1 * 100 - 2/10 :=
  (C2_threshold_iff (1/2) {} "binance" "kraken" cwBuy cwSell 1 (3/2)
      (by decide) (by decide) rfl rfl (by norm_num) (by norm_num)).2
    cwOpp (by with_unfolding_all rfl)

/-- Any opportunity the evaluator returns meets the threshold it was
called with (the guard at src/arbitrage_detector.py line 124). -/
theorem checkOpportunity_meets_threshold {mp : ℚ} {cfg : Config}
    {be se : String} {bt st : Ticker} {o : ArbitrageOpportunity}
    (h : checkOpportunity mp cfg be se bt st = .ok (some o)) :
    mp ≤ o.profit_percentage := by
  simp only [checkOpportunity] at h
  split at h
  · split at h
    · exact absurd h (by simp)
    · split at h
      · rename_i hth
        split at h
        · exact absurd h (by simp)
        · split at h
          · simp only [Except.ok.injEq, Option.some.injEq] at h
            rw [← h]
            exact hth
          · exact absurd h (by simp)
      · exact absurd h (by simp)
  · exact absurd h (by simp)

/-- Every opportunity collected by the inner scan loop meets the
threshold. -/
theorem scanInner_meets_threshold {mp : ℚ} {cfg : Config}
    {ex1 : String × Ticker} {l : List (String × Ticker)}
    {opps : List ArbitrageOpportunity}
    (h : scanInner mp cfg ex1 l = .ok opps) :
    ∀ o ∈ opps, mp ≤ o.profit_percentage := by
  induction l generalizing opps with
  | nil =>
    simp only [scanInner, Except.ok.injEq] at h
    subst h
    simp
  | cons ex2 rest ih =>
    simp only [scanInner] at h
    split at h
    · exact absurd h (by simp)
    · rename_i opp1 h1
      split at h
      · exact absurd h (by simp)
      · rename_i opp2 h2
        split at h
        · exact absurd h (by simp)
        · rename_i tail h3
          simp only [Except.ok.injEq] at h
          subst h
          intro o ho
          simp only [List.mem_append] at ho
          rcases ho with ho | ho | ho
          · rw [Option.mem_toList, Option.mem_def] at ho
            subst ho
            exact checkOpportunity_meets_threshold h1
          · rw [Option.mem_toList, Option.mem_def] at ho
            subst ho
            exact checkOpportunity_meets_threshold h2
          · exact ih h3 o ho

/-- Every opportunity collected by the outer scan loop meets the
threshold. -/
theorem scanOuter_meets_threshold {mp : ℚ} {cfg : Config}
    {l : List (String × Ticker)} {opps : List ArbitrageOpportunity}
    (h : scanOuter mp cfg l = .ok opps) :
    ∀ o ∈ opps, mp ≤ o.profit_percentage := by
  induction l generalizing opps with
  | nil =>
    simp only [scanOuter, Except.ok.injEq] at h
    subst h
    simp
  | cons ex1 rest ih =>
    simp only [scanOuter] at h
    split at h
    · exact absurd h (by simp)
    · rename_i here h1
      split at h
      · exact absurd h (by simp)
      · rename_i tail h2
        simp only [Except.ok.injEq] at h
        subst h
        intro o ho
        rcases List.mem_append.mp ho with ho | ho
        · exact scanInner_meets_threshold h1 o ho
        · exact ih h2 o ho

/-- C3 counterexample: on c3Tickers the two qualifying opportunities come
back in venue-pair enumeration order with profits 49.8% then 99.8% —
strictly ascending, so the returned sequence is not ordered by
netProfitPercent descending. -/
theorem C3_counterexample :
    (findOpportunities s0 {} c3Tickers).map
        (fun r => r.1.map (fun o => o.profit_percentage)) =
      .ok [249/5, 499/5] ∧ (249/5 : ℚ) < 499/5 := by
  constructor
  · with_unfolding_all rfl
  · norm_num

/-- C3 (amended): find_opportunities returns the evaluator's qualifying
results in venue-pair enumeration order, with no profit-based sorting
(the orchestrator sorts separately); what does hold of the collection is
that every returned opportunity meets the detector's minimum-profit
threshold. -/
theorem C3_amended (s : DetectorState) (cfg : Config)
    (tickers : List (String × Option Ticker))
    (opps : List ArbitrageOpportunity) (s' : DetectorState)
    (h : findOpportunities s cfg tickers = .ok (opps, s')) :
    ∀ o ∈ opps, s.min_profit_percentage ≤ o.profit_percentage := by
  simp only [findOpportunities] at h
  split at h
  · simp only [Except.ok.injEq, Prod.mk.injEq] at h
    rw [← h.1]
    simp
  · split at h
    · exact absurd h (by simp)
    · rename_i opps0 heq
      simp only [Except.ok.injEq, Prod.mk.injEq] at h
      rw [← h.1]
      exact scanOuter_meets_threshold heq

/-- Witness for C3_amended: the single opportunity found on cwTickers
meets the default 0.5% threshold. -/
theorem C3_amended_witness :
    s0.min_profit_percentage ≤ cwOpp.profit_percentage :=
  C3_amended s0 {} cwTickers [cwOpp] s1 (by with_unfolding_all rfl) cwOpp
    (List.mem_singleton.mpr rfl)

/-- C8: a successful find_opportunities call advances
opportunities_found by exactly the number of opportunities returned and
touches no other detector state; with fewer than 2 valid entries it
returns the empty list and the state unchanged. -/
theorem C8_frame (s : DetectorState) (cfg : Config)
    (tickers : List (String × Option Ticker))
    (opps : List ArbitrageOpportunity) (s' : DetectorState)
    (h : findOpportunities s cfg tickers = .ok (opps, s')) :
    s'.opportunities_found = s.opportunities_found + opps.length ∧
      s'.opportunities_executed = s.opportunities_executed ∧
      s'.min_profit_percentage = s.min_profit_percentage ∧
      ((validExchanges tickers).length < 2 → opps = [] ∧ s' = s) := by
  simp only [findOpportunities] at h
  split at h
  · rename_i hlt
    simp only [Except.ok.injEq, Prod.mk.injEq] at h
    obtain ⟨h1, h2⟩ := h
    subst h1
    subst h2
    simp
  · rename_i hge
    split at h
    · exact absurd h (by simp)
    · rename_i opps0 heq
      simp only [Except.ok.injEq, Prod.mk.injEq] at h
      obtain ⟨h1, h2⟩ := h
      subst h1
      subst h2
      exact ⟨rfl, rfl, rfl, fun hlt => absurd hlt hge⟩

/-- Witness for C8_frame on the empty snapshot mapping: zero valid
entries, empty result, state unchanged. -/
theorem C8_witness :
    s0.opportunities_found =
      s0.opportunities_found + ([] : List ArbitrageOpportunity).length :=
  (C8_frame s0 {} [] [] s0 (by with_unfolding_all rfl)).1

/-- C9: get_statistics reports the raw counters and a success rate of
executed / max(found, 1) × 100; the max(found, 1) floor keeps the
denominator positive (no division fault is possible), and with nothing
found and nothing executed the reported rate is 0%. -/
theorem C9_success_rate (s : DetectorState) :
    getStatistics s =
        { opportunities_found := s.opportunities_found
          opportunities_executed := s.opportunities_executed
          success_rate :=
            ((s.opportunities_executed : ℚ) /
                ((max s.opportunities_found 1 : ℕ) : ℚ)) * 100 } ∧
      (0 : ℚ) < ((max s.opportunities_found 1 : ℕ) : ℚ) ∧
      (s.opportunities_found = 0 → s.opportunities_executed = 0 →
        (getStatistics s).success_rate = 0) := by
  refine ⟨rfl, ?_, ?_⟩
  · have h1 : (0 : ℕ) < max s.opportunities_found 1 :=
      lt_of_lt_of_le Nat.one_pos (le_max_right _ _)
    exact_mod_cast h1
  · intro h1 h2
    simp [getStatistics, h1, h2]

/-- Witness for C9_success_rate on the fresh state: 0 found, 0 executed,
0% success rate. -/
theorem C9_witness : (getStatistics s0).success_rate = 0 :=
  (C9_success_rate s0).2.2 rfl rfl

/-- C10: the constructor's `or` fallback makes an explicit threshold of 0
(or None) indistinguishable from omitting it — the detector uses the
configured default instead — while any non-zero threshold is kept. -/
theorem C10_falsy_threshold (cfg : Config) :
    (detectorInit (some 0) cfg).min_profit_percentage = cfg.MIN_PROFIT_PERCENTAGE ∧
      (detectorInit none cfg).min_profit_percentage = cfg.MIN_PROFIT_PERCENTAGE ∧
      ∀ x : ℚ, x ≠ 0 → (detectorInit (some x) cfg).min_profit_percentage = x := by
  exact ⟨by simp [detectorInit], rfl, fun x hx => by simp [detectorInit, hx]⟩

/-- Witness for C10_falsy_threshold at the default configuration and the
non-zero threshold 1. -/
theorem C10_witness :
    (detectorInit (some 0) {}).min_profit_percentage =
        ({} : Config).MIN_PROFIT_PERCENTAGE ∧
      (detectorInit (some 1) {}).min_profit_percentage = 1 :=
  ⟨(C10_falsy_threshold {}).1, (C10_falsy_threshold {}).2.2 1 one_ne_zero⟩

end ArbBot
